import Mathlib

/-!
Verification development for the temp-mail backend (`src/server.js`), an
Express gateway that proxies a disposable-email provider.  JavaScript
values that flow through the handlers are embedded as the mutually
inductive `Json` type (with an `undefVal` constructor for JavaScript's
`undefined`), and each route handler is embedded as a pure function from
the request data and the outcomes of its upstream `axios` calls to the
HTTP response it writes together with the list of upstream calls it
performed.
-/

mutual
/-- A JavaScript value as it appears in the server: JSON plus `undefined`. -/
inductive Json where
  | undefVal
  | null
  | bool (b : Bool)
  | num (n : Int)
  | str (s : String)
  | arr (elems : JsonArr)
  | obj (fields : JsonObj)
deriving DecidableEq, Repr
/-- Array of JavaScript values (spelled out so structural recursion applies). -/
inductive JsonArr where
  | nil
  | cons (head : Json) (tail : JsonArr)
deriving DecidableEq, Repr
/-- Fields of a JavaScript object, in insertion order. -/
inductive JsonObj where
  | nil
  | cons (key : String) (val : Json) (tail : JsonObj)
deriving DecidableEq, Repr
end

/-- Build a `JsonArr` from a Lean list (convenience for literals). -/
def JsonArr.ofList : List Json → JsonArr
  | [] => .nil
  | x :: xs => .cons x (JsonArr.ofList xs)

/-- Build a `JsonObj` from a Lean association list (convenience for literals). -/
def JsonObj.ofList : List (String × Json) → JsonObj
  | [] => .nil
  | (k, v) :: fs => .cons k v (JsonObj.ofList fs)

/-- `Json.arr` taking a Lean list. -/
def Json.arrL (xs : List Json) : Json := .arr (JsonArr.ofList xs)

/-- `Json.obj` taking a Lean association list. -/
def Json.objL (fs : List (String × Json)) : Json := .obj (JsonObj.ofList fs)

/-- JavaScript truthiness of a value (`if (x)`); `NaN` is not modelled. -/
def jsTruthy : Json → Bool
  | .undefVal => false
  | .null => false
  | .bool b => b
  | .num n => n != 0
  | .str s => s != ""
  | .arr _ => true
  | .obj _ => true

/-- JavaScript `a || b`: `a` when truthy, else `b`. -/
def jsOr (a b : Json) : Json := if jsTruthy a then a else b

/-- Property access `v[k]` for the non-index string keys the server uses
(`'hydra:member'`, `'domain'`, `'token'`): field lookup on objects,
`undefined` on every other value. -/
def jsonGet : Json → String → Json
  | .obj fields, k => JsonObj.find fields k
  | _, _ => .undefVal
where
  /-- First field with the given key, `undefined` when absent. -/
  JsonObj.find : JsonObj → String → Json
    | .nil, _ => .undefVal
    | .cons k v rest, key => if k = key then v else JsonObj.find rest key

/-- Numeric index `v[0]`: first array element; first character of a
string (as a one-character string); `undefined` otherwise. -/
def jsIndex0 : Json → Json
  | .arr (.cons x _) => x
  | .str s => if s = "" then .undefVal else .str (String.singleton s.front)
  | _ => .undefVal

/-- The JavaScript `length` property: defined for arrays and strings only. -/
def jsLength : Json → Option Nat
  | .arr xs => some (JsonArr.len xs)
  | .str s => some s.length
  | _ => none
where
  /-- Length of a `JsonArr`. -/
  JsonArr.len : JsonArr → Nat
    | .nil => 0
    | .cons _ tl => JsonArr.len tl + 1

/-- Truthiness of `v.length` (the guard `if (!domainList.length)` negated):
a present, non-zero length. -/
def lengthTruthy (v : Json) : Bool :=
  match jsLength v with
  | some n => n != 0
  | none => false

/-- `typeof v === 'object'` — true for objects, arrays and `null`. -/
def isObjectType : Json → Bool
  | .null => true
  | .obj _ => true
  | .arr _ => true
  | _ => false

/-- The keys of an object body, in order (empty for non-objects). -/
def jsonKeys : Json → List String
  | .obj fs => JsonObj.keyList fs
  | _ => []
where
  /-- Keys of a `JsonObj` in order. -/
  JsonObj.keyList : JsonObj → List String
    | .nil => []
    | .cons k _ tl => k :: JsonObj.keyList tl

mutual
/-- String conversion used by template literals (`${x}`): `undefined`/`null`
spelled out, numbers in decimal, arrays joined by commas with
`null`/`undefined` elements blank, plain objects as `[object Object]`. -/
def jsToDisplayString : Json → String
  | .undefVal => "undefined"
  | .null => "null"
  | .bool b => cond b "true" "false"
  | .num n => toString n
  | .str s => s
  | .obj _ => "[object Object]"
  | .arr xs => arrJoin xs
/-- `Array.prototype.join(',')` on the elements. -/
def arrJoin : JsonArr → String
  | .nil => ""
  | .cons x tail =>
    (match x with
     | .undefVal => ""
     | .null => ""
     | v => jsToDisplayString v) ++
    (match tail with
     | .nil => ""
     | .cons y ys => "," ++ arrJoin (.cons y ys))
end

mutual
/-- The value part of `res.json(v)` / `JSON.stringify`: object fields whose
value is `undefined` are dropped, `undefined` array elements become `null`. -/
def jsonSerialize : Json → Json
  | .arr xs => .arr (serializeElems xs)
  | .obj fs => .obj (serializeFields fs)
  | v => v
/-- Serialization of array elements. -/
def serializeElems : JsonArr → JsonArr
  | .nil => .nil
  | .cons x xs =>
    .cons (match jsonSerialize x with | .undefVal => .null | w => w) (serializeElems xs)
/-- Serialization of object fields (dropping `undefined`-valued ones). -/
def serializeFields : JsonObj → JsonObj
  | .nil => .nil
  | .cons k v fs =>
    if v = .undefVal then serializeFields fs
    else .cons k (jsonSerialize v) (serializeFields fs)
end

mutual
/-- A value free of `undefined` (the case for every value parsed from a
JSON body, in particular everything an upstream response carries). -/
def undefFree : Json → Bool
  | .undefVal => false
  | .arr xs => undefFreeElems xs
  | .obj fs => undefFreeFields fs
  | _ => true
/-- `undefFree` on array elements. -/
def undefFreeElems : JsonArr → Bool
  | .nil => true
  | .cons x xs => undefFree x && undefFreeElems xs
/-- `undefFree` on object field values. -/
def undefFreeFields : JsonObj → Bool
  | .nil => true
  | .cons _ v fs => undefFree v && undefFreeFields fs
end

mutual
/-- Serialization is the identity on `undefined`-free values. -/
theorem jsonSerialize_undefFree : ∀ v : Json, undefFree v = true → jsonSerialize v = v
  | .undefVal, h => by simp [undefFree] at h
  | .null, _ => rfl
  | .bool _, _ => rfl
  | .num _, _ => rfl
  | .str _, _ => rfl
  | .arr xs, h => by
      simp only [undefFree] at h
      simp only [jsonSerialize, serializeElems_undefFree xs h]
  | .obj fs, h => by
      simp only [undefFree] at h
      simp only [jsonSerialize, serializeFields_undefFree fs h]
/-- Serialization is the identity on `undefined`-free array elements. -/
theorem serializeElems_undefFree : ∀ xs : JsonArr, undefFreeElems xs = true → serializeElems xs = xs
  | .nil, _ => rfl
  | .cons x xs, h => by
      simp only [undefFreeElems, Bool.and_eq_true] at h
      have hx := jsonSerialize_undefFree x h.1
      have hxs := serializeElems_undefFree xs h.2
      have hxu : x ≠ Json.undefVal := by
        intro hc; rw [hc] at h; simp [undefFree] at h
      simp only [serializeElems, hx, hxs]
/-- Serialization is the identity on `undefined`-free object fields. -/
theorem serializeFields_undefFree : ∀ fs : JsonObj, undefFreeFields fs = true → serializeFields fs = fs
  | .nil, _ => rfl
  | .cons k v fs, h => by
      simp only [undefFreeFields, Bool.and_eq_true] at h
      have hv := jsonSerialize_undefFree v h.1
      have hfs := serializeFields_undefFree fs h.2
      have hvu : v ≠ Json.undefVal := by
        intro hc; rw [hc] at h; simp [undefFree] at h
      simp only [serializeFields, if_neg hvu, hv, hfs]
end

/-- An HTTP response written by a handler: `res.status(s).json(body)`
(`res.json(body)` defaults the status to 200). -/
structure HttpResponse where
  status : Nat
  body : Json
deriving DecidableEq, Repr

/-- One upstream call made through `axios` against the mail provider,
recording the data the server sends with it. -/
inductive UpstreamCall where
  | getDomains
  | postAccounts (address password : String)
  | postToken (address password : String)
  | getMessages (auth : String)
  | getMessage (auth : String) (id : String)
  | deleteMessage (auth : String) (id : String)
deriving DecidableEq, Repr

/-- The `response` carried by a failed `axios` call: the upstream HTTP
status and the (parsed) upstream body `data`. -/
structure AxiosResp where
  status : Nat
  data : Json
deriving DecidableEq, Repr

/-- A failed `axios` call: `response` is present when the upstream
answered with an HTTP error, absent on network-level failure; `message`
is the local error message. -/
structure AxiosErr where
  response : Option AxiosResp
  message : String
deriving DecidableEq, Repr

/-- Outcome of one upstream call: the parsed response `data` on success,
an `AxiosErr` on failure. -/
def AxiosResult := Except AxiosErr Json

/-- `err?.response?.status || 500` from the catch blocks. -/
def errStatus (e : AxiosErr) : Nat :=
  match e.response with
  | some r => if r.status = 0 then 500 else r.status
  | none => 500

/-- `err?.response?.data || err.message` from the catch blocks. -/
def errDetails (e : AxiosErr) : Json :=
  match e.response with
  | some r => jsOr r.data (Json.str e.message)
  | none => Json.str e.message

/-- Response written by every catch block:
`res.status(status).json({ error: label, details })`. -/
def catchResponse (label : String) (e : AxiosErr) : HttpResponse :=
  { status := errStatus e
    body := jsonSerialize (Json.objL
      [("error", Json.str label), ("details", errDetails e)]) }

/-- `Math.random().toString(36)`: the random double in `[0, 1)` is
represented by the list of base-36 digits of its fractional part (no
trailing zero digit); the rendered string is `"0"` when the fraction is
empty and `"0." ++ digits` otherwise. -/
def toString36 (frac : List Char) : List Char :=
  match frac with
  | [] => ['0']
  | _ => '0' :: '.' :: frac

/-- `const randString = (len = 10) => Math.random().toString(36).slice(2, 2 + len);`
with the random draw given by its base-36 fraction digits. -/
def randString (frac : List Char) (len : Nat) : String :=
  (((toString36 frac).drop 2).take len).asString

/-- Per-class rate limiter configuration (`rateLimit({...})` options the
claims depend on): window length in ms, `max`, and the body written by
the 429 `handler` (also stored as `message`). -/
structure LimiterConfig where
  windowMs : Int
  max : Nat
  rejectBody : Json
deriving DecidableEq, Repr

/-- `accountLimiter`: 100 requests / minute for `/api/account`. -/
def accountLimiter : LimiterConfig :=
  { windowMs := 60 * 1000
    max := 100
    rejectBody := Json.objL
      [("error", Json.str "Too many account creations, please wait a minute.")] }

/-- `generalLimiter`: 200 requests / minute for the other routes. -/
def generalLimiter : LimiterConfig :=
  { windowMs := 60 * 1000
    max := 200
    rejectBody := Json.objL
      [("error", Json.str "Too many requests, please wait a minute.")] }

/-- Rate-limit window state for one (route class, client key) pair. -/
structure RateWindow where
  count : Nat
  windowStart : Int
deriving DecidableEq, Repr

/-- Modelled from the spec: the window algorithm of the rate-limiting
primitive (the `express-rate-limit` library itself, which is not part of
this repository's sources) — "on each request, if
`now - windowStart >= windowDurationMs`, reset count to 0 and windowStart
to now; increment count; if count > limit, reject".  Returns the updated
window and `some` 429 response exactly when the request is rejected. -/
def limiterStep (cfg : LimiterConfig) (w : RateWindow) (now : Int) :
    RateWindow × Option HttpResponse :=
  let w0 : RateWindow :=
    if now - w.windowStart ≥ cfg.windowMs then { count := 0, windowStart := now } else w
  let w1 : RateWindow := { count := w0.count + 1, windowStart := w0.windowStart }
  (w1, if w1.count > cfg.max then some { status := 429, body := cfg.rejectBody } else none)

/-- Data of an incoming `/api/messages*` request: the `Authorization`
header, and any token carried in a cookie (which `server.js` never
reads — no cookie parsing is wired, handlers look only at the header). -/
structure ApiRequest where
  authorization : Option String
  cookieToken : Option String
deriving DecidableEq, Repr

/-- `if (!auth)` on the header value: absent or empty string. -/
def strFalsy : Option String → Bool
  | none => true
  | some s => s = ""

/-- The 401 response `res.status(401).json({ error: 'Missing Authorization header' })`. -/
def authMissing : HttpResponse :=
  { status := 401
    body := jsonSerialize (Json.objL [("error", Json.str "Missing Authorization header")]) }

/-- `GET /api/health` — no limiter, no upstream call.  `process.uptime()`
(fractional seconds) is modelled as a number. -/
def healthHandler (uptimeVal : Int) (nowMs : Int) : HttpResponse × List UpstreamCall :=
  ({ status := 200
     body := jsonSerialize (Json.objL
       [("status", Json.str "ok"), ("uptime", Json.num uptimeVal),
        ("timestamp", Json.num nowMs)]) }, [])

/-- `GET /api/domains`: pass the upstream body through, or run the catch block. -/
def domainsHandler (upstream : AxiosResult) : HttpResponse × List UpstreamCall :=
  match upstream with
  | .ok data => ({ status := 200, body := jsonSerialize data }, [.getDomains])
  | .error e => (catchResponse "Failed to fetch domains" e, [.getDomains])

/-- `const domainList = domains['hydra:member'] || [];` -/
def domainListOf (domains : Json) : Json :=
  jsOr (jsonGet domains "hydra:member") (Json.arrL [])

/-- `domainList[0].domain` -/
def accountDomain (domains : Json) : Json :=
  jsonGet (jsIndex0 (domainListOf domains)) "domain"

/-- Modelled from the spec and source line 85:
`const address = `(template)`${localPart || randString(8)}@${domain}`;`
with `r1` the base-36 fraction digits of the `Math.random()` draw that
`randString(8)` would consume. -/
def accountAddress (localPart : Json) (r1 : List Char) (domains : Json) : String :=
  jsToDisplayString (jsOr localPart (Json.str (randString r1 8))) ++ "@" ++
    jsToDisplayString (accountDomain domains)

/-- `POST /api/account`: fetch domains, guard the empty list with a 502,
compose address and password, create the account, exchange for a token,
answer `{ address, token }`; any `axios` failure runs the shared catch
block.  `localPart` is the (arbitrary JSON) `req.body.localPart`;
`r1`/`r2` are the two `Math.random()` draws as base-36 fraction digits. -/
def accountHandler (localPart : Json) (r1 r2 : List Char)
    (domainsRes accountsRes tokenRes : AxiosResult) :
    HttpResponse × List UpstreamCall :=
  match domainsRes with
  | .error e => (catchResponse "Account creation failed" e, [.getDomains])
  | .ok domains =>
    if lengthTruthy (domainListOf domains) then
      let address := accountAddress localPart r1 domains
      let password := randString r2 16
      match accountsRes with
      | .error e =>
        (catchResponse "Account creation failed" e,
         [.getDomains, .postAccounts address password])
      | .ok _ =>
        match tokenRes with
        | .error e =>
          (catchResponse "Account creation failed" e,
           [.getDomains, .postAccounts address password, .postToken address password])
        | .ok tokenResp =>
          ({ status := 200
             body := jsonSerialize (Json.objL
               [("address", Json.str address),
                ("token", jsonGet tokenResp "token")]) },
           [.getDomains, .postAccounts address password, .postToken address password])
    else
      ({ status := 502
         body := jsonSerialize (Json.objL [("error", Json.str "No domains available")]) },
       [.getDomains])

/-- `GET /api/messages`: 401 when the header is falsy, otherwise proxy. -/
def messagesListHandler (req : ApiRequest) (upstream : AxiosResult) :
    HttpResponse × List UpstreamCall :=
  match req.authorization with
  | none => (authMissing, [])
  | some auth =>
    if auth = "" then (authMissing, [])
    else
      match upstream with
      | .ok data => ({ status := 200, body := jsonSerialize data }, [.getMessages auth])
      | .error e => (catchResponse "Failed to fetch messages" e, [.getMessages auth])

/-- `GET /api/messages/:id`: 401 when the header is falsy, otherwise proxy. -/
def messageGetHandler (req : ApiRequest) (id : String) (upstream : AxiosResult) :
    HttpResponse × List UpstreamCall :=
  match req.authorization with
  | none => (authMissing, [])
  | some auth =>
    if auth = "" then (authMissing, [])
    else
      match upstream with
      | .ok data => ({ status := 200, body := jsonSerialize data }, [.getMessage auth id])
      | .error e => (catchResponse "Failed to fetch message" e, [.getMessage auth id])

/-- `DELETE /api/messages/:id`: 401 when the header is falsy; on upstream
success the body is discarded and `{ ok: true }` is written. -/
def messageDeleteHandler (req : ApiRequest) (id : String) (upstream : AxiosResult) :
    HttpResponse × List UpstreamCall :=
  match req.authorization with
  | none => (authMissing, [])
  | some auth =>
    if auth = "" then (authMissing, [])
    else
      match upstream with
      | .ok _ =>
        ({ status := 200, body := jsonSerialize (Json.objL [("ok", Json.bool true)]) },
         [.deleteMessage auth id])
      | .error e => (catchResponse "Failed to delete message" e, [.deleteMessage auth id])

/-- An error object reaching the global error handler: its `statusCode`
property (`undefined` when absent) and its `message` property. -/
structure JsError where
  statusCode : Json
  message : Json
deriving DecidableEq, Repr

/-- The global catch-all: `err?.statusCode === 429` answers 429 with the
stored message (wrapped as `{ error: message || 'Too many requests' }`
when the message is not object-typed), anything else answers
`500 { error: 'Internal Server Error' }`. -/
def errorHandler (err : JsError) : HttpResponse :=
  if err.statusCode = Json.num 429 then
    { status := 429
      body := jsonSerialize
        (if isObjectType err.message then err.message
         else Json.objL [("error", jsOr err.message (Json.str "Too many requests"))]) }
  else
    { status := 500
      body := jsonSerialize (Json.objL [("error", Json.str "Internal Server Error")]) }

/-- The public routes of the gateway. -/
inductive Route where
  | health
  | domains
  | account
  | messagesList
  | messageGet (id : String)
  | messageDelete (id : String)
deriving DecidableEq, Repr

/-- Which limiter middleware each route is registered with in `server.js`
(`/api/health` has none; `/api/account` uses the account limiter; the
rest use the general limiter). -/
def routeLimiter : Route → Option LimiterConfig
  | .health => none
  | .domains => some generalLimiter
  | .account => some accountLimiter
  | .messagesList => some generalLimiter
  | .messageGet _ => some generalLimiter
  | .messageDelete _ => some generalLimiter

/-- The middleware chain of one request on one route: the route's limiter
(when any) runs first and, on rejection, answers 429 itself — the handler
never runs and no upstream call happens; otherwise the handler's outcome
is returned unchanged. -/
def dispatch (route : Route) (w : RateWindow) (now : Int)
    (handlerResult : HttpResponse × List UpstreamCall) :
    RateWindow × HttpResponse × List UpstreamCall :=
  match routeLimiter route with
  | none => (w, handlerResult)
  | some cfg =>
    match limiterStep cfg w now with
    | (w', none) => (w', handlerResult)
    | (w', some reject) => (w', reject, [])

theorem limiterStep_in_window (cfg : LimiterConfig) (w : RateWindow) (now : Int)
    (h : now - w.windowStart < cfg.windowMs) :
    limiterStep cfg w now =
      ({ count := w.count + 1, windowStart := w.windowStart },
       if w.count + 1 > cfg.max then some { status := 429, body := cfg.rejectBody }
       else none) := by
  simp only [limiterStep]
  rw [if_neg (by omega)]

theorem limiterStep_reset (cfg : LimiterConfig) (w : RateWindow) (now : Int)
    (h : now - w.windowStart ≥ cfg.windowMs) :
    limiterStep cfg w now =
      ({ count := 1, windowStart := now },
       if 1 > cfg.max then some { status := 429, body := cfg.rejectBody }
       else none) := by
  simp only [limiterStep]
  rw [if_pos (by omega)]

/-- Claim C1: for each route class (account-creation, limit 100; general,
limit 200) and any client key window, a request arriving within the
60-second window is admitted while the running count stays at or below
the class limit, and the first request that makes the count exceed the
limit is rejected with status 429 and the class's fixed error body. -/
theorem limiter_admits_up_to_limit_then_429
    (cfg : LimiterConfig) (hcfg : cfg = accountLimiter ∨ cfg = generalLimiter)
    (w : RateWindow) (now : Int) (hwin : now - w.windowStart < cfg.windowMs) :
    accountLimiter.max = 100 ∧ generalLimiter.max = 200 ∧
    accountLimiter.windowMs = 60000 ∧ generalLimiter.windowMs = 60000 ∧
    accountLimiter.rejectBody =
      Json.objL [("error", Json.str "Too many account creations, please wait a minute.")] ∧
    generalLimiter.rejectBody =
      Json.objL [("error", Json.str "Too many requests, please wait a minute.")] ∧
    (w.count + 1 ≤ cfg.max → (limiterStep cfg w now).2 = none) ∧
    (w.count = cfg.max →
      (limiterStep cfg w now).2 = some { status := 429, body := cfg.rejectBody }) := by
  refine ⟨rfl, rfl, rfl, rfl, rfl, rfl, ?_, ?_⟩
  · intro hle
    rw [limiterStep_in_window cfg w now hwin]
    simp only [if_neg (by omega : ¬ w.count + 1 > cfg.max)]
  · intro heq
    rw [limiterStep_in_window cfg w now hwin]
    simp only [if_pos (by omega : w.count + 1 > cfg.max)]

theorem limiter_admits_up_to_limit_then_429_witness :
    (limiterStep accountLimiter { count := 100, windowStart := 0 } 1).2 =
      some { status := 429, body := accountLimiter.rejectBody } :=
  (limiter_admits_up_to_limit_then_429 accountLimiter (Or.inl rfl)
    { count := 100, windowStart := 0 } 1 (by decide)).2.2.2.2.2.2.2 rfl

/-- Claim C2: on each request the limiter follows the window algorithm —
when `now - windowStart ≥ windowDurationMs` (60000 ms for both classes)
the window is reset (count back to 0, windowStart to now) before the
request is counted, so the resulting state has count 1; consequently a
key whose previous window was over the limit (rejected) is admitted
again by the first request after the window elapses. -/
theorem limiter_resets_after_window
    (cfg : LimiterConfig) (hcfg : cfg = accountLimiter ∨ cfg = generalLimiter)
    (w : RateWindow) (now : Int) (helapsed : now - w.windowStart ≥ cfg.windowMs) :
    (limiterStep cfg w now).1 = { count := 1, windowStart := now } ∧
    (limiterStep cfg w now).2 = none := by
  rw [limiterStep_reset cfg w now helapsed]
  refine ⟨rfl, ?_⟩
  rcases hcfg with h | h <;> subst h <;> rfl

theorem limiter_resets_after_window_witness :
    (limiterStep accountLimiter { count := 150, windowStart := 0 } 60000).1 =
      { count := 1, windowStart := 60000 } ∧
    (limiterStep accountLimiter { count := 150, windowStart := 0 } 60000).2 = none :=
  limiter_resets_after_window accountLimiter (Or.inl rfl)
    { count := 150, windowStart := 0 } 60000 (by decide)

/-- Claim C3: when the upstream domains call of `POST /api/account`
succeeds but the domain list is empty, the handler answers 502 with the
body `{ error: 'No domains available' }` and performs no further upstream
call — in particular no account registration and no token exchange. -/
theorem account_empty_domains_502
    (localPart : Json) (r1 r2 : List Char) (domains : Json)
    (accountsRes tokenRes : AxiosResult)
    (hempty : domainListOf domains = Json.arrL []) :
    accountHandler localPart r1 r2 (.ok domains) accountsRes tokenRes =
      ({ status := 502, body := Json.objL [("error", Json.str "No domains available")] },
       [.getDomains]) := by
  simp only [accountHandler, hempty]
  rfl

theorem account_empty_domains_502_witness :
    accountHandler Json.undefVal [] [] (.ok (Json.objL [("hydra:member", Json.arrL [])]))
      (.ok (Json.objL [])) (.ok (Json.objL [])) =
      ({ status := 502, body := Json.objL [("error", Json.str "No domains available")] },
       [.getDomains]) :=
  account_empty_domains_502 Json.undefVal [] [] (Json.objL [("hydra:member", Json.arrL [])])
    (.ok (Json.objL [])) (.ok (Json.objL [])) (by decide)

/-- Claim C4: a request to `GET /api/messages`, `GET /api/messages/:id`
or `DELETE /api/messages/:id` that carries no Authorization header and no
cookie-borne token is answered 401 with the JSON body
`{ error: 'Missing Authorization header' }`, and no upstream call is
performed. -/
theorem messages_missing_auth_401
    (req : ApiRequest) (id : String) (u1 u2 u3 : AxiosResult)
    (hauth : req.authorization = none) (hcookie : req.cookieToken = none) :
    messagesListHandler req u1 = (authMissing, []) ∧
    messageGetHandler req id u2 = (authMissing, []) ∧
    messageDeleteHandler req id u3 = (authMissing, []) ∧
    authMissing =
      { status := 401
        body := Json.objL [("error", Json.str "Missing Authorization header")] } := by
  refine ⟨?_, ?_, ?_, rfl⟩ <;>
    simp only [messagesListHandler, messageGetHandler, messageDeleteHandler, hauth]

theorem messages_missing_auth_401_witness :
    messagesListHandler { authorization := none, cookieToken := none }
      (.ok (Json.objL [])) = (authMissing, []) ∧
    messageDeleteHandler { authorization := none, cookieToken := none } "m1"
      (.ok (Json.objL [])) = (authMissing, []) := by
  have h := messages_missing_auth_401 { authorization := none, cookieToken := none }
    "m1" (.ok (Json.objL [])) (.ok (Json.objL [])) (.ok (Json.objL [])) rfl rfl
  exact ⟨h.1, h.2.2.1⟩

/-- Claim C5: when all three upstream steps of `POST /api/account`
succeed (and the token response carries a defined `token` field), the
response is 200 with a body holding exactly the two fields `address` and
`token`; the generated password influences only the outgoing upstream
calls, never the response — the response is identical for any two random
draws of the password. -/
theorem account_success_returns_address_token_only
    (localPart : Json) (r1 r2 r2' : List Char) (domains accountsBody tokenResp : Json)
    (hnonempty : lengthTruthy (domainListOf domains) = true)
    (htok : undefFree (jsonGet tokenResp "token") = true) :
    (accountHandler localPart r1 r2 (.ok domains) (.ok accountsBody) (.ok tokenResp)).1 =
      { status := 200
        body := Json.objL
          [("address", Json.str (accountAddress localPart r1 domains)),
           ("token", jsonGet tokenResp "token")] } ∧
    jsonKeys (accountHandler localPart r1 r2 (.ok domains) (.ok accountsBody)
      (.ok tokenResp)).1.body = ["address", "token"] ∧
    (accountHandler localPart r1 r2 (.ok domains) (.ok accountsBody) (.ok tokenResp)).1 =
      (accountHandler localPart r1 r2' (.ok domains) (.ok accountsBody) (.ok tokenResp)).1 := by
  have hne : jsonGet tokenResp "token" ≠ Json.undefVal := by
    intro hc; rw [hc] at htok; simp [undefFree] at htok
  have hbody : ∀ r : List Char,
      (accountHandler localPart r1 r (.ok domains) (.ok accountsBody) (.ok tokenResp)).1 =
      { status := 200
        body := Json.objL
          [("address", Json.str (accountAddress localPart r1 domains)),
           ("token", jsonGet tokenResp "token")] } := by
    intro r
    simp only [accountHandler, hnonempty, if_true]
    simp only [jsonSerialize, Json.objL, JsonObj.ofList, serializeFields, if_neg hne]
    simp only [jsonSerialize_undefFree _ htok]
    rfl
  refine ⟨hbody r2, ?_, (hbody r2).trans (hbody r2').symm⟩
  rw [hbody r2]
  rfl

theorem account_success_returns_address_token_only_witness :
    (accountHandler Json.undefVal ['a','b','c','d','e','f','g','h','z'] ['p','w']
       (.ok (Json.objL [("hydra:member",
          Json.arrL [Json.objL [("domain", Json.str "example.com")]])]))
       (.ok (Json.objL [])) (.ok (Json.objL [("token", Json.str "tok123")]))).1 =
      { status := 200
        body := Json.objL
          [("address", Json.str "abcdefgh@example.com"),
           ("token", Json.str "tok123")] } := by
  have h := account_success_returns_address_token_only Json.undefVal
    ['a','b','c','d','e','f','g','h','z'] ['p','w'] ['p','w']
    (Json.objL [("hydra:member", Json.arrL [Json.objL [("domain", Json.str "example.com")]])])
    (Json.objL []) (Json.objL [("token", Json.str "tok123")]) (by decide) (by decide)
  exact h.1.trans (by decide)

/-- Claim C6 as stated is false: when the upstream answers an HTTP error
whose body is falsy (here a 404 with an empty-string body), the catch
block `err?.response?.data || err.message` puts the local axios message
under `details`, not the upstream's error body. -/
theorem upstream_error_details_counterexample :
    (domainsHandler (.error
       { response := some { status := 404, data := Json.str "" },
         message := "Request failed with status code 404" })).1 =
      { status := 404
        body := Json.objL
          [("error", Json.str "Failed to fetch domains"),
           ("details", Json.str "Request failed with status code 404")] } ∧
    (domainsHandler (.error
       { response := some { status := 404, data := Json.str "" },
         message := "Request failed with status code 404" })).1.body ≠
      Json.objL
        [("error", Json.str "Failed to fetch domains"),
         ("details", Json.str "")] := by decide

/-- Claim C6 (amended): on every proxied route, an upstream HTTP error
with a nonzero status is forwarded with the same status code; the
upstream's error body is included under `details` when it is truthy
(non-empty), while a falsy upstream body or a missing upstream response
makes `details` carry the local error message (status 500 when no
upstream status is available). -/
theorem upstream_errors_forwarded_with_details :
    (∀ lab e r, AxiosErr.response e = some r → AxiosResp.status r ≠ 0 →
      jsTruthy (AxiosResp.data r) = true → undefFree (AxiosResp.data r) = true →
      catchResponse lab e =
        { status := r.status
          body := Json.objL [("error", Json.str lab), ("details", r.data)] }) ∧
    (∀ lab e r, AxiosErr.response e = some r → AxiosResp.status r ≠ 0 →
      jsTruthy (AxiosResp.data r) = false →
      catchResponse lab e =
        { status := r.status
          body := Json.objL [("error", Json.str lab), ("details", Json.str e.message)] }) ∧
    (∀ lab e, AxiosErr.response e = none →
      catchResponse lab e =
        { status := 500
          body := Json.objL [("error", Json.str lab), ("details", Json.str e.message)] }) ∧
    (∀ e, (domainsHandler (.error e)).1 = catchResponse "Failed to fetch domains" e) ∧
    (∀ localPart r1 r2 e aRes tRes,
      (accountHandler localPart r1 r2 (.error e) aRes tRes).1 =
        catchResponse "Account creation failed" e) ∧
    (∀ req auth e, ApiRequest.authorization req = some auth → auth ≠ "" →
      (messagesListHandler req (.error e)).1 = catchResponse "Failed to fetch messages" e) ∧
    (∀ req auth id e, ApiRequest.authorization req = some auth → auth ≠ "" →
      (messageGetHandler req id (.error e)).1 = catchResponse "Failed to fetch message" e) ∧
    (∀ req auth id e, ApiRequest.authorization req = some auth → auth ≠ "" →
      (messageDeleteHandler req id (.error e)).1 =
        catchResponse "Failed to delete message" e) := by
  refine ⟨?_, ?_, ?_, ?_, ?_, ?_, ?_, ?_⟩
  · intro lab e r hr hs hd hnu
    have hne : AxiosResp.data r ≠ Json.undefVal := by
      intro hc; rw [hc] at hd; simp [jsTruthy] at hd
    simp only [catchResponse, errStatus, errDetails, hr, if_neg hs, jsOr, hd, if_true]
    simp only [jsonSerialize, Json.objL, JsonObj.ofList, serializeFields, if_neg hne]
    simp only [jsonSerialize_undefFree _ hnu]
    rfl
  · intro lab e r hr hs hd
    simp only [catchResponse, errStatus, errDetails, hr, if_neg hs, jsOr, hd, if_false]
    rfl
  · intro lab e hr
    simp only [catchResponse, errStatus, errDetails, hr]
    rfl
  · intro e; rfl
  · intro localPart r1 r2 e aRes tRes; rfl
  · intro req auth e hauth hne
    simp only [messagesListHandler, hauth, if_neg hne]
  · intro req auth id e hauth hne
    simp only [messageGetHandler, hauth, if_neg hne]
  · intro req auth id e hauth hne
    simp only [messageDeleteHandler, hauth, if_neg hne]

theorem upstream_errors_forwarded_with_details_witness :
    catchResponse "Failed to fetch domains"
      { response := some { status := 404
                           data := Json.objL [("message", Json.str "Not Found")] },
        message := "Request failed with status code 404" } =
      { status := 404
        body := Json.objL
          [("error", Json.str "Failed to fetch domains"),
           ("details", Json.objL [("message", Json.str "Not Found")])] } :=
  upstream_errors_forwarded_with_details.1 "Failed to fetch domains"
    { response := some { status := 404
                         data := Json.objL [("message", Json.str "Not Found")] },
      message := "Request failed with status code 404" }
    { status := 404, data := Json.objL [("message", Json.str "Not Found")] }
    rfl (by decide) (by decide) (by decide)

theorem randString_length_le (frac : List Char) (len : Nat) :
    (randString frac len).length ≤ len := by
  show (((toString36 frac).drop 2).take len).length ≤ len
  exact List.length_take_le len _

/-- Claim C7 as stated is false: `randString` slices the base-36
rendering of `Math.random()`, and that rendering can be shorter than
requested.  With the draw 0.5 — rendered `"0.i"`, fraction digits
`['i']` — the random local part is `"i"` (1 character, not 8) and the
password is `"i"` (1 character, not 16). -/
theorem account_random_length_counterexample :
    (accountHandler Json.undefVal ['i'] ['i']
       (.ok (Json.objL [("hydra:member",
          Json.arrL [Json.objL [("domain", Json.str "example.com")]])]))
       (.ok (Json.objL [])) (.ok (Json.objL [("token", Json.str "t")]))).2 =
      [.getDomains, .postAccounts "i@example.com" "i", .postToken "i@example.com" "i"] ∧
    randString ['i'] 8 = "i" ∧
    randString ['i'] 16 = "i" ∧
    ("i" : String).length = 1 ∧
    (1 : Nat) ≠ 8 ∧ (1 : Nat) ≠ 16 := by decide

/-- Claim C7 (amended): in `POST /api/account` the composed address is
`${localPart}@{firstDomain}` when the caller supplies a truthy (non-empty)
localPart and otherwise uses a random local part of **at most** 8
characters (exactly 8 whenever the draw's base-36 fraction has at least
10 digits); the generated password, sent with the registration and token
calls, is a random string of **at most** 16 characters. -/
theorem account_address_composition
    (localPart : Json) (r1 r2 : List Char) (domains accountsBody tokenResp : Json)
    (hnonempty : lengthTruthy (domainListOf domains) = true) :
    ((accountHandler localPart r1 r2 (.ok domains) (.ok accountsBody) (.ok tokenResp)).2 =
      [.getDomains,
       .postAccounts (accountAddress localPart r1 domains) (randString r2 16),
       .postToken (accountAddress localPart r1 domains) (randString r2 16)]) ∧
    (jsTruthy localPart = true →
      accountAddress localPart r1 domains =
        jsToDisplayString localPart ++ "@" ++ jsToDisplayString (accountDomain domains)) ∧
    (jsTruthy localPart = false →
      accountAddress localPart r1 domains =
        randString r1 8 ++ "@" ++ jsToDisplayString (accountDomain domains)) ∧
    (randString r1 8).length ≤ 8 ∧
    (randString r2 16).length ≤ 16 := by
  refine ⟨?_, ?_, ?_, randString_length_le r1 8, randString_length_le r2 16⟩
  · simp only [accountHandler, hnonempty, if_true]
  · intro ht
    simp only [accountAddress, jsOr, ht, if_true]
  · intro hf
    simp only [accountAddress, jsOr, hf, if_false]
    rfl

theorem account_address_composition_witness :
    accountAddress (Json.str "alice") ['z']
      (Json.objL [("hydra:member",
        Json.arrL [Json.objL [("domain", Json.str "mail.example")]])]) =
      "alice@mail.example" := by
  have h := account_address_composition (Json.str "alice") ['z'] ['z']
    (Json.objL [("hydra:member",
      Json.arrL [Json.objL [("domain", Json.str "mail.example")]])])
    (Json.objL []) (Json.objL []) (by decide)
  exact (h.2.1 (by decide)).trans (by decide)

/-- Claim C8: the global catch-all answers an error carrying
`statusCode` 429 with status 429 and its stored message payload — for
the two limiters' stored bodies this is byte-identical to the inline
rejection body every `limiterStep` rejection produces — and answers any
other error with status 500 and `{ error: 'Internal Server Error' }`. -/
theorem error_handler_normalizes
    (err : JsError) (cfg : LimiterConfig)
    (hcfg : cfg = accountLimiter ∨ cfg = generalLimiter) :
    (err.statusCode = Json.num 429 → err.message = cfg.rejectBody →
      errorHandler err = { status := 429, body := cfg.rejectBody }) ∧
    (∀ w now resp, (limiterStep cfg w now).2 = some resp →
      resp = { status := 429, body := cfg.rejectBody }) ∧
    (err.statusCode ≠ Json.num 429 →
      errorHandler err =
        { status := 500
          body := Json.objL [("error", Json.str "Internal Server Error")] }) := by
  refine ⟨?_, ?_, ?_⟩
  · intro h1 h2
    rcases hcfg with h | h <;> subst h <;>
      simp only [errorHandler, h1, h2] <;> decide
  · intro w now resp hsome
    simp only [limiterStep] at hsome
    split at hsome <;> split at hsome <;>
      first
        | exact (Option.some.inj hsome).symm
        | exact absurd hsome (by simp)
  · intro hne
    simp only [errorHandler, if_neg hne]
    rfl

theorem error_handler_normalizes_witness :
    errorHandler { statusCode := Json.num 429, message := accountLimiter.rejectBody } =
      { status := 429, body := accountLimiter.rejectBody } :=
  (error_handler_normalizes
    { statusCode := Json.num 429, message := accountLimiter.rejectBody }
    accountLimiter (Or.inl rfl)).1 rfl rfl

/-- Claim C9: `GET /api/health` is registered with no limiter middleware,
so it is admitted whatever any limiter window holds, and it answers 200
with a body carrying the liveness status, the process uptime and the
current timestamp, with no upstream call. -/
theorem health_bypasses_limiters (w : RateWindow) (now uptimeVal tsVal : Int) :
    routeLimiter Route.health = none ∧
    dispatch Route.health w now (healthHandler uptimeVal tsVal) =
      (w,
       { status := 200
         body := Json.objL
           [("status", Json.str "ok"), ("uptime", Json.num uptimeVal),
            ("timestamp", Json.num tsVal)] },
       []) := by
  refine ⟨rfl, ?_⟩
  rfl

/-- Claim C10: a `DELETE /api/messages/:id` whose upstream delete
succeeds answers exactly `{ ok: true }`, for any upstream response body
(the body is discarded), unlike the GET routes, which pass the upstream
body through. -/
theorem delete_returns_ok_true
    (req : ApiRequest) (auth id : String) (b bAlt mdata : Json)
    (hauth : req.authorization = some auth) (hne : auth ≠ "")
    (hnu : undefFree mdata = true) :
    (messageDeleteHandler req id (.ok b)).1 =
      { status := 200, body := Json.objL [("ok", Json.bool true)] } ∧
    messageDeleteHandler req id (.ok b) = messageDeleteHandler req id (.ok bAlt) ∧
    (messagesListHandler req (.ok mdata)).1 = { status := 200, body := mdata } ∧
    (messageGetHandler req id (.ok mdata)).1 = { status := 200, body := mdata } := by
  refine ⟨?_, ?_, ?_, ?_⟩
  · simp only [messageDeleteHandler, hauth, if_neg hne]
    rfl
  · simp only [messageDeleteHandler, hauth, if_neg hne]
  · simp only [messagesListHandler, hauth, if_neg hne, jsonSerialize_undefFree _ hnu]
  · simp only [messageGetHandler, hauth, if_neg hne, jsonSerialize_undefFree _ hnu]

theorem delete_returns_ok_true_witness :
    (messageDeleteHandler { authorization := some "Bearer tok", cookieToken := none }
       "m7" (.ok (Json.objL [("ignored", Json.str "payload")]))).1 =
      { status := 200, body := Json.objL [("ok", Json.bool true)] } :=
  (delete_returns_ok_true
    { authorization := some "Bearer tok", cookieToken := none } "Bearer tok" "m7"
    (Json.objL [("ignored", Json.str "payload")]) (Json.objL []) (Json.objL [])
    rfl (by decide) (by decide)).1
